import Mathlib

/-!
Verification of the Transcode Plan Compiler of the Encoder repository.

The development shallowly embeds the algorithmic core of the repository:

* the Duration Corrector (src/src/encoder.rs, duration_adjust_filter),
* the Bitrate Budgeter (src/src/encoder.rs, encode_agency, bitrate block),
* the Registration Resolver (src/src/config.rs, lookup_registro and
  extract_code_from_filename),
* the Audio Policy Selector (src/src/encoder.rs, build_audio_filters),
* the Filter Graph Composer (src/src/encoder.rs, build_filter_complex).

Machine integers (u32, u64) are modelled as Nat: for these functions the Rust
code never overflows (all values stay far below 2^32 or 2^64) and the only
wrap-prone operation, saturating_sub, coincides with truncated Nat
subtraction.  The f64 values driving the Duration Corrector are modelled as
exact rationals; the branch structure of the source compares a difference
against the constant 0.001 and translates verbatim.
-/

namespace Encoder

/-- Source metadata of a probed video.  Mirrors struct VideoMetadata in
src/src/metadata.rs (duration_secs: u64, width, height, fps_num, fps_den,
audio_channels: u32, has_audio: bool).  The field duration_raw is read by
src/src/encoder.rs (duration_adjust_filter, line 11) but is absent from the
struct version kept under src/.  Modelled from the spec: duration_raw,
described in the spec data model as the unrounded probed duration (a float,
used only for correction-delta computation); floats are modelled as exact
rationals. -/
structure VideoMetadata where
  duration_secs : ℕ
  duration_raw : ℚ
  width : ℕ
  height : ℕ
  fps_num : ℕ
  fps_den : ℕ
  audio_channels : ℕ
  has_audio : Bool

/-- Rendering of a nonnegative rational with exactly four decimal places,
modelling the Rust fixed-precision float formatting applied to pad_duration in
duration_adjust_filter (src/src/encoder.rs line 23): round to the nearest
fourth decimal, then print the integer part, a dot, and four zero-padded
fraction digits. -/
def formatFixed4 (q : ℚ) : String :=
  let n : ℤ := (q * 10000 + 1/2).floor
  let fracStr := toString (n % 10000).toNat
  toString (n / 10000) ++ "." ++
    String.mk (List.replicate (4 - fracStr.length) '0') ++ fracStr

/-- Duration Corrector: duration_adjust_filter (src/src/encoder.rs lines 9-25).
target is duration_secs cast to float (the Rust Display of that integral float
prints exactly the digits of the integer, so the trim fragment interpolates
toString duration_secs); diff is the raw duration minus the target; a diff
within 0.001 yields no adjustment, a positive diff yields a trim fragment, a
negative one a tpad (clone last frame) fragment. -/
def duration_adjust_filter (m : VideoMetadata) : String :=
  let target : ℚ := (m.duration_secs : ℚ)
  let raw : ℚ := m.duration_raw
  let diff : ℚ := raw - target
  if |diff| < 1/1000 then
    ""
  else if diff > 0 then
    ",trim=duration=" ++ toString m.duration_secs ++ ",setpts=PTS-STARTPTS"
  else
    ",tpad=stop_mode=clone:stop_duration=" ++ formatFixed4 (-diff)

/-- Bitrate Budgeter: the video_kbps computation at the start of encode_agency
(src/src/encoder.rs lines 157-165).  u64 division floors and saturating_sub is
truncated subtraction, both matching Nat arithmetic; the guarded branch avoids
the division when duration_secs is zero and uses the fallback constant 3000,
and the result is clamped into 500..5000. -/
def encode_agency_video_kbps (m : VideoMetadata) : ℕ :=
  let target_kbits : ℕ := 56000
  let audio_kbps : ℕ := 160
  let video_kbps : ℕ :=
    if m.duration_secs > 0 then target_kbits / m.duration_secs - audio_kbps
    else 3000
  min (max video_kbps 500) 5000

/-- Registration Resolver: lookup_registro (src/src/config.rs lines 97-105).
The HashMap with unique u32 keys is modelled as a partial mapping from Nat to
String.  A hit returns the stored value; a miss retries once at code - 40 when
code > 50, and otherwise resolves to none. -/
def lookup_registro (code : ℕ) (codes : ℕ → Option String) : Option String :=
  match codes code with
  | some reg => some reg
  | none => if code > 50 then codes (code - 40) else none

/-- Splitting of a character list at every occurrence of a separator; yields
the (possibly empty) segments between separators, used to model the component
structure of a path string. -/
def splitOnChar : List Char → Char → List (List Char)
  | [], _ => [[]]
  | x :: xs, c =>
    if x = c then [] :: splitOnChar xs c
    else
      match splitOnChar xs c with
      | r :: rs => (x :: r) :: rs
      | [] => [[x]]

/-- Model of Rust Path::file_name on a path given as a string: the last path
component, ignoring empty components and single-dot components, and none when
no component remains or the last one is a parent-directory reference.  Used by
extract_code_from_filename (src/src/config.rs lines 86-89). -/
def pathFileName (s : String) : Option String :=
  let parts := ((splitOnChar s.data '/').map String.mk).filter
    (fun p => p != "" && p != ".")
  match parts.getLast? with
  | some lastPart => if lastPart = ".." then none else some lastPart
  | none => none

/-- Model of the extension stripping done by Rust Path::file_stem on a file
name: the portion before the last dot, except that a name with no dot, or
whose only dot is its first character, is kept whole. -/
def stripExtension (name : String) : String :=
  match name.data.reverse.dropWhile (fun c => c != '.') with
  | [] => name
  | _ :: beforeDot => if beforeDot = [] then name else String.mk beforeDot.reverse

/-- The stem used by extract_code_from_filename (src/src/config.rs lines
86-89): Path::new(filename).file_stem(), falling back to the whole filename
when there is no file name (to_str never fails on a Rust &str input). -/
def file_stem (filename : String) : String :=
  match pathFileName filename with
  | some name => stripExtension name
  | none => filename

/-- Model of stem.rsplit at the underscore followed by .next() (src/src/config.rs
line 92): the suffix of the string after its last underscore, which is the
whole string when it has no underscore. -/
def rsplit_next (s : String) : String :=
  String.mk ((s.data.reverse.takeWhile (fun c => c != '_')).reverse)

/-- Model of Rust str::parse::<u32> as applied by extract_code_from_filename:
an optional leading plus sign followed by one or more ASCII digits whose value
fits in 32 bits; anything else fails. -/
def parseU32 (s : String) : Option ℕ :=
  let cs := match s.data with
    | '+' :: rest => rest
    | cs => cs
  if cs ≠ [] ∧ cs.all (fun c => c.isDigit) then
    let n := cs.foldl (fun acc c => acc * 10 + (c.toNat - 48)) 0
    if n < 2 ^ 32 then some n else none
  else none

/-- Code extraction: extract_code_from_filename (src/src/config.rs lines
85-93): parse the last underscore-separated segment of the file stem as a
u32. -/
def extract_code_from_filename (filename : String) : Option ℕ :=
  parseU32 (rsplit_next (file_stem filename))

/-- Audio Policy Selector: build_audio_filters (src/src/encoder.rs lines
254-284).  First a silence fragment covering the lead-in (slate + black)
segment, then the source-audio fragment chosen by has_audio and
audio_channels, then the two-way audio concat producing the aout label.
silence_duration is the i32 argument (the call site passes 5 + 2). -/
def build_audio_filters (m : VideoMetadata) (silence_duration : ℤ) : List String :=
  let filters : List String :=
    ["anullsrc=r=48000:cl=4c:d=" ++ toString silence_duration ++ "[silence]"]
  let filters := filters ++
    [if !m.has_audio then
      "anullsrc=r=48000:cl=4c:d=" ++ toString m.duration_secs ++ "[amain]"
    else if m.audio_channels ≥ 4 then
      "[2:a]aresample=48000,loudnorm=I=-24:TP=-3:LRA=18,pan=4c|c0=c0|c1=c1|c2=c2|c3=c3[amain]"
    else
      "[2:a]aresample=48000,loudnorm=I=-24:TP=-3:LRA=18,pan=4c|c0=c0|c1=c1|c2=0*c0|c3=0*c0[amain]"]
  filters ++ ["[silence][amain]concat=n=2:v=0:a=1[aout]"]

/-- Filter Graph Composer: the parts vector built by build_filter_complex
(src/src/encoder.rs lines 232-250): slate stage, black stage, main stage with
the duration adjustment inlined, three-way video concat, then the audio
filters. -/
def filter_complex_parts (m : VideoMetadata) (silence_duration : ℤ) : List String :=
  let dur_adjust := duration_adjust_filter m
  ["[0:v]scale=1920:1080,fps=30000/1001,format=yuv422p,setfield=tff[slate]",
   "[1:v]format=yuv422p,setfield=tff[black]",
   "[2:v]hwdownload,format=nv12,scale=1920:1080,fps=30000/1001" ++ dur_adjust ++
     ",format=yuv422p,setfield=tff[main]",
   "[slate][black][main]concat=n=3:v=1:a=0[vout]"] ++
  build_audio_filters m silence_duration

/-- Filter Graph Composer: build_filter_complex (src/src/encoder.rs lines
232-252), the parts vector joined by a semicolon and newline. -/
def build_filter_complex (m : VideoMetadata) (silence_duration : ℤ) : String :=
  String.intercalate ";\n" (filter_complex_parts m silence_duration)

/-- The lavfi specification of ffmpeg input 1, the solid-color buffer segment,
in encode (src/src/encoder.rs line 62); it fixes the resolution and frame rate
of the black stream at its source. -/
def black_input : String := "color=black:s=1920x1080:r=30000/1001"

/-- Substring occurrence: the first string occurs contiguously inside the
second (on the underlying character lists). -/
def strIn (pat hay : String) : Prop := pat.data <:+: hay.data

instance (pat hay : String) : Decidable (strIn pat hay) :=
  inferInstanceAs (Decidable (pat.data <:+: hay.data))

lemma strIn_append_left (pat a b : String) (h : strIn pat a) : strIn pat (a ++ b) := by
  obtain ⟨s, t, hst⟩ := h
  exact ⟨s, t ++ b.data, by rw [String.data_append, ← hst]; simp⟩

lemma strIn_append_right (pat a b : String) (h : strIn pat b) : strIn pat (a ++ b) := by
  obtain ⟨s, t, hst⟩ := h
  exact ⟨a.data ++ s, t, by rw [String.data_append, ← hst]; simp⟩

/-- C2: for positive duration the Bitrate Budgeter returns
max(500, min(5000, 56000 / duration - 160)) and the result lies in
[500, 5000]; for zero duration it takes the guarded branch that performs no
division and returns the fallback constant 3000. -/
theorem c2_bitrate_budgeter (m : VideoMetadata) :
    (0 < m.duration_secs →
      encode_agency_video_kbps m =
        max 500 (min 5000 (56000 / m.duration_secs - 160)) ∧
      500 ≤ encode_agency_video_kbps m ∧ encode_agency_video_kbps m ≤ 5000) ∧
    (m.duration_secs = 0 → encode_agency_video_kbps m = 3000) := by
  simp only [encode_agency_video_kbps]
  constructor
  · intro h
    rw [if_pos h]
    generalize 56000 / m.duration_secs = x
    omega
  · intro h
    rw [h]
    decide

/-- Witness for C2 at the spec scenario: duration 60 s gives
max(500, min(5000, 56000 / 60 - 160)) = 773. -/
theorem c2_witness :
    0 < (60 : ℕ) ∧
    encode_agency_video_kbps ⟨60, ((60 : ℕ) : ℚ), 1920, 1080, 30000, 1001, 2, true⟩ =
      max 500 (min 5000 (56000 / 60 - 160)) ∧
    encode_agency_video_kbps ⟨60, ((60 : ℕ) : ℚ), 1920, 1080, 30000, 1001, 2, true⟩ = 773 :=
  ⟨by decide,
   ((c2_bitrate_budgeter ⟨60, ((60 : ℕ) : ℚ), 1920, 1080, 30000, 1001, 2, true⟩).1
     (by decide)).1,
   by decide⟩

/-- C8: for a fixed target size (56000 kbit) and fixed audio bitrate
(160 kbps), the Bitrate Budgeter is monotonically non-increasing in the
duration: a longer positive duration never yields a larger video bitrate. -/
theorem c8_bitrate_monotone (m₁ m₂ : VideoMetadata)
    (h₁ : 0 < m₁.duration_secs) (h₂ : m₁.duration_secs ≤ m₂.duration_secs) :
    encode_agency_video_kbps m₂ ≤ encode_agency_video_kbps m₁ := by
  have hdiv : 56000 / m₂.duration_secs ≤ 56000 / m₁.duration_secs :=
    Nat.div_le_div_left h₂ h₁
  simp only [encode_agency_video_kbps]
  rw [if_pos h₁, if_pos (Nat.lt_of_lt_of_le h₁ h₂)]
  omega

/-- Witness for C8 at durations 10 and 100. -/
theorem c8_witness :
    0 < (10 : ℕ) ∧ (10 : ℕ) ≤ 100 ∧
    encode_agency_video_kbps ⟨100, ((100 : ℕ) : ℚ), 1920, 1080, 30000, 1001, 2, true⟩ ≤
      encode_agency_video_kbps ⟨10, ((10 : ℕ) : ℚ), 1920, 1080, 30000, 1001, 2, true⟩ :=
  ⟨by decide, by decide,
   c8_bitrate_monotone ⟨10, ((10 : ℕ) : ℚ), 1920, 1080, 30000, 1001, 2, true⟩
     ⟨100, ((100 : ℕ) : ℚ), 1920, 1080, 30000, 1001, 2, true⟩ (by decide) (by decide)⟩

/-- C3: resolution behaviour of the Registration Resolver.  A code present in
the table resolves to its value; an absent code above 50 resolves to exactly
what the table holds at code - 40 (the offset retry, taken if and only if the
code itself misses); an absent code at or below 50 resolves to none without
any retry. -/
theorem c3_registration_resolver (c : ℕ) (codes : ℕ → Option String) :
    (∀ v, codes c = some v → lookup_registro c codes = some v) ∧
    (codes c = none → c > 50 → lookup_registro c codes = codes (c - 40)) ∧
    (codes c = none → c ≤ 50 → lookup_registro c codes = none) := by
  refine ⟨?_, ?_, ?_⟩
  · intro v hv
    unfold lookup_registro
    rw [hv]
  · intro hc h50
    unfold lookup_registro
    rw [hc]
    simp [h50]
  · intro hc h50
    unfold lookup_registro
    rw [hc]
    simp
    omega

/-- Witness for C3 at the spec round-trip and fallback scenarios: code 17 with
table containing 17 resolves directly; code 60 with a table containing only 20
resolves through the offset retry. -/
theorem c3_witness :
    ((fun n => if n = 17 then some "R1" else none : ℕ → Option String) 17 = some "R1" ∧
      lookup_registro 17 (fun n => if n = 17 then some "R1" else none) = some "R1") ∧
    ((fun n => if n = 20 then some "R2" else none : ℕ → Option String) 60 = none ∧
      (60 : ℕ) > 50 ∧
      lookup_registro 60 (fun n => if n = 20 then some "R2" else none) =
        (fun n => if n = 20 then some "R2" else none : ℕ → Option String) (60 - 40)) :=
  ⟨⟨rfl, (c3_registration_resolver 17 _).1 "R1" rfl⟩,
   ⟨rfl, by decide, (c3_registration_resolver 60 _).2.1 rfl (by decide)⟩⟩

/-- C10: the offset retry is applied at most once.  For a code above 50 absent
from the table whose offset key is also absent, resolution returns none, no
matter what the table holds anywhere else (in particular at code - 80). -/
theorem c10_offset_retry_once (c : ℕ) (codes : ℕ → Option String)
    (h50 : c > 50) (hc : codes c = none) (hc40 : codes (c - 40) = none) :
    lookup_registro c codes = none := by
  unfold lookup_registro
  rw [hc]
  simp [h50, hc40]

/-- Witness for C10 at code 95 with a table whose only key is 15: neither 95
nor 55 is a key, 55 is still above the threshold, 95 - 80 = 15 is a key, yet
resolution returns none. -/
theorem c10_witness :
    (95 : ℕ) > 50 ∧
    (fun n => if n = 15 then some "R" else none : ℕ → Option String) 95 = none ∧
    (fun n => if n = 15 then some "R" else none : ℕ → Option String) (95 - 40) = none ∧
    (95 - 40 : ℕ) > 50 ∧
    (fun n => if n = 15 then some "R" else none : ℕ → Option String) (95 - 80) = some "R" ∧
    lookup_registro 95 (fun n => if n = 15 then some "R" else none) = none :=
  ⟨by decide, rfl, rfl, by decide, rfl,
   c10_offset_retry_once 95 (fun n => if n = 15 then some "R" else none)
     (by decide) rfl rfl⟩

/-- C1: the Duration Corrector emits exactly one of three fragments, decided
by delta = duration_raw - target with the 0.001 tolerance: the empty fragment
within the tolerance, the trim fragment (cut to target_seconds, setpts
timebase reset) for delta at or above it, the frame-hold pad fragment (tpad
clone of the last frame for the extra |delta| seconds) for delta at or below
its negation; the three fragments are pairwise distinct, the three regions
cover every delta, and in particular a raw duration of target - 0.0005 gives
the empty fragment while target + 0.002 gives the trim fragment. -/
theorem c1_duration_corrector (m : VideoMetadata) :
    (|m.duration_raw - (m.duration_secs : ℚ)| < 1/1000 →
      duration_adjust_filter m = "") ∧
    (1/1000 ≤ m.duration_raw - (m.duration_secs : ℚ) →
      duration_adjust_filter m =
        ",trim=duration=" ++ toString m.duration_secs ++ ",setpts=PTS-STARTPTS") ∧
    (m.duration_raw - (m.duration_secs : ℚ) ≤ -(1/1000) →
      duration_adjust_filter m =
        ",tpad=stop_mode=clone:stop_duration=" ++
          formatFixed4 (-(m.duration_raw - (m.duration_secs : ℚ)))) ∧
    (",trim=duration=" ++ toString m.duration_secs ++ ",setpts=PTS-STARTPTS" ≠
        ("" : String) ∧
      ",tpad=stop_mode=clone:stop_duration=" ++
          formatFixed4 (-(m.duration_raw - (m.duration_secs : ℚ))) ≠ ("" : String) ∧
      ",trim=duration=" ++ toString m.duration_secs ++ ",setpts=PTS-STARTPTS" ≠
        ",tpad=stop_mode=clone:stop_duration=" ++
          formatFixed4 (-(m.duration_raw - (m.duration_secs : ℚ)))) ∧
    (|m.duration_raw - (m.duration_secs : ℚ)| < 1/1000 ∨
      1/1000 ≤ m.duration_raw - (m.duration_secs : ℚ) ∨
      m.duration_raw - (m.duration_secs : ℚ) ≤ -(1/1000)) ∧
    (m.duration_raw = (m.duration_secs : ℚ) - 1/2000 →
      duration_adjust_filter m = "") ∧
    (m.duration_raw = (m.duration_secs : ℚ) + 1/500 →
      duration_adjust_filter m =
        ",trim=duration=" ++ toString m.duration_secs ++ ",setpts=PTS-STARTPTS") := by
  refine ⟨?_, ?_, ?_, ⟨?_, ?_, ?_⟩, ?_, ?_, ?_⟩
  · intro h
    simp only [duration_adjust_filter]
    rw [if_pos h]
  · intro h
    have hno : ¬ |m.duration_raw - (m.duration_secs : ℚ)| < 1/1000 := by
      rw [abs_lt, not_and_or]; right; push_neg; exact h
    simp only [duration_adjust_filter]
    rw [if_neg hno, if_pos (by linarith)]
  · intro h
    have hno : ¬ |m.duration_raw - (m.duration_secs : ℚ)| < 1/1000 := by
      rw [abs_lt, not_and_or]; left; push_neg; linarith
    have hneg : ¬ m.duration_raw - (m.duration_secs : ℚ) > 0 := by
      push_neg; linarith
    simp only [duration_adjust_filter]
    rw [if_neg hno, if_neg hneg]
  · intro h
    have h2 := congrArg String.data h
    simp [String.data_append] at h2
  · intro h
    have h2 := congrArg String.data h
    simp [String.data_append] at h2
  · intro h
    have h2 := congrArg String.data h
    simp [String.data_append] at h2
  · rcases le_or_lt (1/1000 : ℚ) (m.duration_raw - (m.duration_secs : ℚ)) with h | h
    · exact Or.inr (Or.inl h)
    · rcases le_or_lt (m.duration_raw - (m.duration_secs : ℚ)) (-(1/1000) : ℚ) with h2 | h2
      · exact Or.inr (Or.inr h2)
      · exact Or.inl (by rw [abs_lt]; exact ⟨h2, h⟩)
  · intro h
    have hd : m.duration_raw - (m.duration_secs : ℚ) = -(1/2000) := by rw [h]; ring
    simp only [duration_adjust_filter]
    rw [if_pos (by rw [hd, abs_lt]; constructor <;> norm_num)]
  · intro h
    have hd : m.duration_raw - (m.duration_secs : ℚ) = 1/500 := by rw [h]; ring
    have hno : ¬ |m.duration_raw - (m.duration_secs : ℚ)| < 1/1000 := by
      rw [hd, abs_lt, not_and_or]; right; push_neg; norm_num
    simp only [duration_adjust_filter]
    rw [if_neg hno, if_pos (by rw [hd]; norm_num)]

/-- Witness for C1: at target 10 s, a raw duration of 10 - 0.0005 yields the
empty fragment and a raw duration of 10 + 0.002 yields the trim fragment. -/
theorem c1_witness :
    duration_adjust_filter
        ⟨10, ((10 : ℕ) : ℚ) - 1/2000, 1920, 1080, 30000, 1001, 2, true⟩ = "" ∧
    duration_adjust_filter
        ⟨10, ((10 : ℕ) : ℚ) + 1/500, 1920, 1080, 30000, 1001, 2, true⟩ =
      ",trim=duration=" ++ toString (10 : ℕ) ++ ",setpts=PTS-STARTPTS" :=
  ⟨(c1_duration_corrector
      ⟨10, ((10 : ℕ) : ℚ) - 1/2000, 1920, 1080, 30000, 1001, 2, true⟩).2.2.2.2.2.1 rfl,
   (c1_duration_corrector
      ⟨10, ((10 : ℕ) : ℚ) + 1/500, 1920, 1080, 30000, 1001, 2, true⟩).2.2.2.2.2.2 rfl⟩

/-- A filter fragment declares the 48000 Hz sample rate, either as the r
parameter of a generated silence source or through an explicit aresample to
48000. -/
def declaresRate48k (s : String) : Prop :=
  strIn "r=48000" s ∨ strIn "aresample=48000" s

/-- A filter fragment declares a four-channel layout, either as the cl
parameter of a generated silence source or through a pan to the 4c layout. -/
def declares4Channels (s : String) : Prop :=
  strIn "cl=4c" s ∨ strIn "pan=4c" s

/-- C5: with source audio present, 1 to 3 channels select the fragment that
resamples to 48000 Hz, applies loudness normalization (loudnorm I=-24 TP=-3
LRA=18), maps channel 0 to 0 and 1 to 1, and forces channels 2 and 3 to
explicit zero gain (0*c0); 4 or more channels select the fragment that
resamples, applies the same loudness normalization, and passes the first four
channels through positionally, zeroing none of them. -/
theorem c5_audio_channel_policy (m : VideoMetadata) (d : ℤ) :
    (m.has_audio = true → 1 ≤ m.audio_channels → m.audio_channels ≤ 3 →
      build_audio_filters m d =
        ["anullsrc=r=48000:cl=4c:d=" ++ toString d ++ "[silence]",
         "[2:a]aresample=48000,loudnorm=I=-24:TP=-3:LRA=18,pan=4c|c0=c0|c1=c1|c2=0*c0|c3=0*c0[amain]",
         "[silence][amain]concat=n=2:v=0:a=1[aout]"]) ∧
    (m.has_audio = true → 4 ≤ m.audio_channels →
      build_audio_filters m d =
        ["anullsrc=r=48000:cl=4c:d=" ++ toString d ++ "[silence]",
         "[2:a]aresample=48000,loudnorm=I=-24:TP=-3:LRA=18,pan=4c|c0=c0|c1=c1|c2=c2|c3=c3[amain]",
         "[silence][amain]concat=n=2:v=0:a=1[aout]"]) := by
  constructor
  · intro ha h1 h3
    have hch : ¬ m.audio_channels ≥ 4 := by omega
    simp [build_audio_filters, ha, hch]
  · intro ha h4
    simp [build_audio_filters, ha, h4]

/-- Witness for C5 at 2 channels and at 5 channels. -/
theorem c5_witness :
    (1 ≤ (2 : ℕ) ∧ (2 : ℕ) ≤ 3 ∧
      build_audio_filters ⟨30, ((30 : ℕ) : ℚ), 1920, 1080, 30000, 1001, 2, true⟩ 7 =
        ["anullsrc=r=48000:cl=4c:d=" ++ toString (7 : ℤ) ++ "[silence]",
         "[2:a]aresample=48000,loudnorm=I=-24:TP=-3:LRA=18,pan=4c|c0=c0|c1=c1|c2=0*c0|c3=0*c0[amain]",
         "[silence][amain]concat=n=2:v=0:a=1[aout]"]) ∧
    (4 ≤ (5 : ℕ) ∧
      build_audio_filters ⟨30, ((30 : ℕ) : ℚ), 1920, 1080, 30000, 1001, 5, true⟩ 7 =
        ["anullsrc=r=48000:cl=4c:d=" ++ toString (7 : ℤ) ++ "[silence]",
         "[2:a]aresample=48000,loudnorm=I=-24:TP=-3:LRA=18,pan=4c|c0=c0|c1=c1|c2=c2|c3=c3[amain]",
         "[silence][amain]concat=n=2:v=0:a=1[aout]"]) :=
  ⟨⟨by decide, by decide,
    (c5_audio_channel_policy ⟨30, ((30 : ℕ) : ℚ), 1920, 1080, 30000, 1001, 2, true⟩ 7).1
      rfl (by decide) (by decide)⟩,
   ⟨by decide,
    (c5_audio_channel_policy ⟨30, ((30 : ℕ) : ℚ), 1920, 1080, 30000, 1001, 5, true⟩ 7).2
      rfl (by decide)⟩⟩

/-- C6: without source audio the Audio Policy Selector synthesizes silence for
the whole program: the lead-in silence fragment for the slate + black segment
and a second silence fragment covering the full source duration, independent
of the recorded channel count. -/
theorem c6_no_audio_silence (m : VideoMetadata) (d : ℤ)
    (h : m.has_audio = false) :
    build_audio_filters m d =
      ["anullsrc=r=48000:cl=4c:d=" ++ toString d ++ "[silence]",
       "anullsrc=r=48000:cl=4c:d=" ++ toString m.duration_secs ++ "[amain]",
       "[silence][amain]concat=n=2:v=0:a=1[aout]"] := by
  simp [build_audio_filters, h]

/-- Witness for C6 at duration 42 with a (meaningless) channel count of 5. -/
theorem c6_witness :
    (⟨42, ((42 : ℕ) : ℚ), 1920, 1080, 30000, 1001, 5, false⟩ :
        VideoMetadata).has_audio = false ∧
    build_audio_filters ⟨42, ((42 : ℕ) : ℚ), 1920, 1080, 30000, 1001, 5, false⟩ 7 =
      ["anullsrc=r=48000:cl=4c:d=" ++ toString (7 : ℤ) ++ "[silence]",
       "anullsrc=r=48000:cl=4c:d=" ++ toString (42 : ℕ) ++ "[amain]",
       "[silence][amain]concat=n=2:v=0:a=1[aout]"] :=
  ⟨rfl,
   c6_no_audio_silence ⟨42, ((42 : ℕ) : ℚ), 1920, 1080, 30000, 1001, 5, false⟩ 7 rfl⟩

/-- C9: in every branch of the Audio Policy Selector the lead-in silence
fragment and the source-audio fragment both declare the 48000 Hz sample rate
and the four-channel layout, so the two segments joined by the audio concat
always match in sample rate and channel layout. -/
theorem c9_audio_concat_compatible (m : VideoMetadata) (d : ℤ) :
    ∃ silence amain : String,
      build_audio_filters m d =
        [silence, amain, "[silence][amain]concat=n=2:v=0:a=1[aout]"] ∧
      declaresRate48k silence ∧ declares4Channels silence ∧
      declaresRate48k amain ∧ declares4Channels amain := by
  have hsr : declaresRate48k ("anullsrc=r=48000:cl=4c:d=" ++ toString d ++ "[silence]") :=
    Or.inl (strIn_append_left _ _ _ (strIn_append_left _ _ _ (by decide)))
  have hsc : declares4Channels ("anullsrc=r=48000:cl=4c:d=" ++ toString d ++ "[silence]") :=
    Or.inl (strIn_append_left _ _ _ (strIn_append_left _ _ _ (by decide)))
  cases hb : m.has_audio with
  | false =>
      refine ⟨_, "anullsrc=r=48000:cl=4c:d=" ++ toString m.duration_secs ++ "[amain]",
        by simp [build_audio_filters, hb], hsr, hsc, ?_, ?_⟩
      · exact Or.inl (strIn_append_left _ _ _ (strIn_append_left _ _ _ (by decide)))
      · exact Or.inl (strIn_append_left _ _ _ (strIn_append_left _ _ _ (by decide)))
  | true =>
      by_cases h4 : m.audio_channels ≥ 4
      · exact ⟨_,
          "[2:a]aresample=48000,loudnorm=I=-24:TP=-3:LRA=18,pan=4c|c0=c0|c1=c1|c2=c2|c3=c3[amain]",
          by simp [build_audio_filters, hb, h4], hsr, hsc,
          Or.inr (by decide), Or.inr (by decide)⟩
      · exact ⟨_,
          "[2:a]aresample=48000,loudnorm=I=-24:TP=-3:LRA=18,pan=4c|c0=c0|c1=c1|c2=0*c0|c3=0*c0[amain]",
          by simp [build_audio_filters, hb, h4], hsr, hsc,
          Or.inr (by decide), Or.inr (by decide)⟩

/-- C7 counterexample: in a concrete plan the second video stage of the
composed graph is the solid-color stage, and its fragment specifies neither a
resolution (no 1920x1080 or scale) nor a frame rate (no fps or 30000/1001)
before the three-way concatenation, refuting the claim that every video stage
specifies identical pixel format, scan mode, resolution and frame rate. -/
theorem c7_counterexample :
    (filter_complex_parts ⟨30, ((30 : ℕ) : ℚ), 1920, 1080, 30000, 1001, 2, true⟩ 7)[1]? =
      some "[1:v]format=yuv422p,setfield=tff[black]" ∧
    ¬ strIn "1920" "[1:v]format=yuv422p,setfield=tff[black]" ∧
    ¬ strIn "scale" "[1:v]format=yuv422p,setfield=tff[black]" ∧
    ¬ strIn "fps" "[1:v]format=yuv422p,setfield=tff[black]" ∧
    ¬ strIn "30000/1001" "[1:v]format=yuv422p,setfield=tff[black]" :=
  ⟨rfl, by decide, by decide, by decide, by decide⟩

/-- C7 (amended): the composed graph is exactly the ordered sequence of the
slate stage, the solid-color stage, the main stage with the Duration
Corrector fragment inlined, the three-way video concat producing [vout], the
silence lead-in fragment, the source-audio fragment, and the two-way audio
concat producing [aout], joined by semicolon-newline; the slate and main
stages specify pixel format, top-field-first scan, resolution and frame rate,
while the solid-color stage specifies pixel format and scan mode only, its
resolution and frame rate being fixed by its lavfi input declaration in the
encoder invocation. -/
theorem c7_filter_graph_composition (m : VideoMetadata) (d : ℤ) :
    ∃ amain : String,
      filter_complex_parts m d =
        ["[0:v]scale=1920:1080,fps=30000/1001,format=yuv422p,setfield=tff[slate]",
         "[1:v]format=yuv422p,setfield=tff[black]",
         "[2:v]hwdownload,format=nv12,scale=1920:1080,fps=30000/1001" ++
           duration_adjust_filter m ++ ",format=yuv422p,setfield=tff[main]",
         "[slate][black][main]concat=n=3:v=1:a=0[vout]",
         "anullsrc=r=48000:cl=4c:d=" ++ toString d ++ "[silence]",
         amain,
         "[silence][amain]concat=n=2:v=0:a=1[aout]"] ∧
      build_filter_complex m d = String.intercalate ";\n" (filter_complex_parts m d) ∧
      (strIn "scale=1920:1080"
          "[0:v]scale=1920:1080,fps=30000/1001,format=yuv422p,setfield=tff[slate]" ∧
        strIn "fps=30000/1001"
          "[0:v]scale=1920:1080,fps=30000/1001,format=yuv422p,setfield=tff[slate]" ∧
        strIn "format=yuv422p"
          "[0:v]scale=1920:1080,fps=30000/1001,format=yuv422p,setfield=tff[slate]" ∧
        strIn "setfield=tff"
          "[0:v]scale=1920:1080,fps=30000/1001,format=yuv422p,setfield=tff[slate]") ∧
      (strIn "format=yuv422p" "[1:v]format=yuv422p,setfield=tff[black]" ∧
        strIn "setfield=tff" "[1:v]format=yuv422p,setfield=tff[black]") ∧
      (strIn "scale=1920:1080"
          ("[2:v]hwdownload,format=nv12,scale=1920:1080,fps=30000/1001" ++
            duration_adjust_filter m ++ ",format=yuv422p,setfield=tff[main]") ∧
        strIn "fps=30000/1001"
          ("[2:v]hwdownload,format=nv12,scale=1920:1080,fps=30000/1001" ++
            duration_adjust_filter m ++ ",format=yuv422p,setfield=tff[main]") ∧
        strIn "format=yuv422p"
          ("[2:v]hwdownload,format=nv12,scale=1920:1080,fps=30000/1001" ++
            duration_adjust_filter m ++ ",format=yuv422p,setfield=tff[main]") ∧
        strIn "setfield=tff"
          ("[2:v]hwdownload,format=nv12,scale=1920:1080,fps=30000/1001" ++
            duration_adjust_filter m ++ ",format=yuv422p,setfield=tff[main]")) ∧
      (strIn "s=1920x1080" black_input ∧ strIn "r=30000/1001" black_input) := by
  have hmain0 : strIn "scale=1920:1080"
      ("[2:v]hwdownload,format=nv12,scale=1920:1080,fps=30000/1001" ++
        duration_adjust_filter m ++ ",format=yuv422p,setfield=tff[main]") :=
    strIn_append_left _ _ _ (strIn_append_left _ _ _ (by decide))
  have hmain1 : strIn "fps=30000/1001"
      ("[2:v]hwdownload,format=nv12,scale=1920:1080,fps=30000/1001" ++
        duration_adjust_filter m ++ ",format=yuv422p,setfield=tff[main]") :=
    strIn_append_left _ _ _ (strIn_append_left _ _ _ (by decide))
  have hmain2 : strIn "format=yuv422p"
      ("[2:v]hwdownload,format=nv12,scale=1920:1080,fps=30000/1001" ++
        duration_adjust_filter m ++ ",format=yuv422p,setfield=tff[main]") :=
    strIn_append_right _ _ _ (by decide)
  have hmain3 : strIn "setfield=tff"
      ("[2:v]hwdownload,format=nv12,scale=1920:1080,fps=30000/1001" ++
        duration_adjust_filter m ++ ",format=yuv422p,setfield=tff[main]") :=
    strIn_append_right _ _ _ (by decide)
  have haudio : ∃ amain : String,
      build_audio_filters m d =
        ["anullsrc=r=48000:cl=4c:d=" ++ toString d ++ "[silence]", amain,
         "[silence][amain]concat=n=2:v=0:a=1[aout]"] := by
    cases hb : m.has_audio with
    | false =>
        exact ⟨"anullsrc=r=48000:cl=4c:d=" ++ toString m.duration_secs ++ "[amain]",
          by simp [build_audio_filters, hb]⟩
    | true =>
        by_cases h4 : m.audio_channels ≥ 4
        · exact ⟨"[2:a]aresample=48000,loudnorm=I=-24:TP=-3:LRA=18,pan=4c|c0=c0|c1=c1|c2=c2|c3=c3[amain]",
            by simp [build_audio_filters, hb, h4]⟩
        · exact ⟨"[2:a]aresample=48000,loudnorm=I=-24:TP=-3:LRA=18,pan=4c|c0=c0|c1=c1|c2=0*c0|c3=0*c0[amain]",
            by simp [build_audio_filters, hb, h4]⟩
  obtain ⟨amain, hA⟩ := haudio
  refine ⟨amain, ?_, rfl, ⟨by decide, by decide, by decide, by decide⟩,
    ⟨by decide, by decide⟩, ⟨hmain0, hmain1, hmain2, hmain3⟩, ⟨by decide, by decide⟩⟩
  simp [filter_complex_parts, hA]

lemma dropWhile_head_false {α : Type} (p : α → Bool) (l : List α) (x : α)
    (xs : List α) (h : l.dropWhile p = x :: xs) : p x = false := by
  induction l with
  | nil => simp at h
  | cons a as ih =>
      rw [List.dropWhile_cons] at h
      by_cases hpa : p a = true
      · rw [if_pos hpa] at h; exact ih h
      · rw [if_neg hpa] at h
        injection h with h1 h2
        rw [← h1]
        exact Bool.not_eq_true _ |>.mp hpa

lemma last_seg_no_sep (l : List Char) :
    '_' ∉ (l.reverse.takeWhile (fun c => c != '_')).reverse := by
  intro hm
  rw [List.mem_reverse] at hm
  have := List.mem_takeWhile_imp hm
  simp at this

lemma split_at_last_sep (l : List Char) (h : '_' ∈ l) :
    ∃ pre : List Char,
      l = pre ++ '_' :: (l.reverse.takeWhile (fun c => c != '_')).reverse := by
  cases hd : l.reverse.dropWhile (fun c => c != '_') with
  | nil =>
      exfalso
      have hall := List.dropWhile_eq_nil_iff.mp hd '_' (List.mem_reverse.mpr h)
      simp at hall
  | cons x xs =>
      have hx : (x != '_') = false :=
        dropWhile_head_false (fun c => c != '_') l.reverse x xs hd
      have hx2 : x = '_' := by simpa using hx
      refine ⟨xs.reverse, ?_⟩
      have hsplit : l.reverse =
          l.reverse.takeWhile (fun c => c != '_') ++ (x :: xs) := by
        rw [← hd]
        exact (List.takeWhile_append_dropWhile
          (fun c => c != '_') l.reverse).symm
      calc l = l.reverse.reverse := (List.reverse_reverse l).symm
        _ = (l.reverse.takeWhile (fun c => c != '_') ++ (x :: xs)).reverse := by
            rw [← hsplit]
        _ = xs.reverse ++ '_' ::
              (l.reverse.takeWhile (fun c => c != '_')).reverse := by
            rw [List.reverse_append, List.reverse_cons, hx2]
            simp

/-- C4 counterexample: the filename 123.mp4 contains no underscore separator,
yet code extraction succeeds with code 123 (the whole stem parses), refuting
the reading that a name without a separator always yields the no-code
outcome. -/
theorem c4_counterexample :
    extract_code_from_filename "123.mp4" = some 123 ∧
    '_' ∉ "123.mp4".data ∧
    '_' ∉ (file_stem "123.mp4").data :=
  ⟨by decide, by decide, by decide⟩

/-- C4 (amended): code extraction parses, as an unsigned 32-bit integer, the
final segment of the extension-stripped filename with respect to the last
underscore: that segment contains no underscore; when the stem contains an
underscore the stem splits as a prefix, the last underscore, and the segment;
when it contains none the whole stem is the segment (so a fully numeric stem
still yields a code); and whenever the parse of the segment fails the result
is the distinct no-code outcome none, never a code. -/
theorem c4_code_extraction (fname : String) :
    extract_code_from_filename fname =
      parseU32 (rsplit_next (file_stem fname)) ∧
    '_' ∉ (rsplit_next (file_stem fname)).data ∧
    ('_' ∈ (file_stem fname).data →
      ∃ pre : List Char,
        (file_stem fname).data =
          pre ++ '_' :: (rsplit_next (file_stem fname)).data) ∧
    ('_' ∉ (file_stem fname).data →
      rsplit_next (file_stem fname) = file_stem fname) ∧
    (parseU32 (rsplit_next (file_stem fname)) = none →
      extract_code_from_filename fname = none) := by
  refine ⟨rfl, last_seg_no_sep _, ?_, ?_, fun h => h⟩
  · intro h
    exact split_at_last_sep _ h
  · intro h
    have h3 : (file_stem fname).data.reverse.takeWhile (fun c => c != '_') =
        (file_stem fname).data.reverse := by
      refine List.takeWhile_eq_self_iff.mpr ?_
      intro x hx
      have : x ∈ (file_stem fname).data := List.mem_reverse.mp hx
      simp only [bne_iff_ne, ne_eq, decide_eq_true_eq]
      intro heq
      exact h (heq ▸ this)
    simp only [rsplit_next, h3, List.reverse_reverse]

/-- Witness for C4 at the spec round-trip scenario FEV_PROMO_17.mp4: the stem
contains an underscore, splits at its last underscore before the segment 17,
and extraction yields code 17. -/
theorem c4_witness :
    extract_code_from_filename "FEV_PROMO_17.mp4" =
      parseU32 (rsplit_next (file_stem "FEV_PROMO_17.mp4")) ∧
    ('_' ∈ (file_stem "FEV_PROMO_17.mp4").data ∧
      ∃ pre : List Char,
        (file_stem "FEV_PROMO_17.mp4").data =
          pre ++ '_' :: (rsplit_next (file_stem "FEV_PROMO_17.mp4")).data) ∧
    extract_code_from_filename "FEV_PROMO_17.mp4" = some 17 :=
  ⟨(c4_code_extraction "FEV_PROMO_17.mp4").1,
   ⟨by decide, (c4_code_extraction "FEV_PROMO_17.mp4").2.2.1 (by decide)⟩,
   by decide⟩

end Encoder
